import Mathlib

/-!
Verification development for the source file fetcher of the repository
(crates/module_fetcher/src/file_fetcher.rs).  The Rust code is embedded
shallowly: pure functions become Lean functions, async control flow becomes
explicit state passing over a list of scripted network responses, machine
side effects (file system, blob store, data URL decoding, wall clock
freshness) become explicit functional parameters.  External crates
(deno_ast, deno_core url handling, the reqwest transport, the text
encoding helpers that live outside the provided sources) are modelled
from the specification and marked as such in their doc comments.
-/

set_option autoImplicit false

deriving instance DecidableEq for Except

namespace FileFetcherModel

/-- Error values; mirrors the AnyError values produced in file_fetcher.rs
(custom_error kind/message, generic_error, uri_error) plus encoding and
read failures surfaced from collaborators. -/
inductive Err where
  | custom (kind : String) (msg : String)
  | generic (msg : String)
  | uriError (msg : String)
  | encodingError (msg : String)
  | ioError (msg : String)
  deriving DecidableEq, Repr

/-- Media types recognized by the fetcher (deno_ast MediaType, external
crate; the variants used by file_fetcher.rs are modelled). -/
inductive MediaType where
  | TypeScript
  | Tsx
  | JavaScript
  | Jsx
  | Cjs
  | Mjs
  | Json
  | Wasm
  | Unknown
  deriving DecidableEq, Repr

/-- A module specifier: an absolute URL, modelled as its scheme, the part
after the colon, and the optional query and fragment.  set_query(None) and
set_fragment(None) of the url crate become field updates. -/
structure Url where
  scheme : String
  path : String
  query : Option String
  fragment : Option String
  deriving DecidableEq, Repr

/-- The serialized form, as url::Url::as_str returns it. -/
def Url.asStr (u : Url) : String :=
  u.scheme ++ (":") ++ u.path
    ++ (match u.query with | some q => ("?") ++ q | none => (""))
    ++ (match u.fragment with | some f => ("#") ++ f | none => (""))

/-- Response header maps: HashMap from String to String in the source,
modelled as an association list with distinct keys. -/
abbrev Headers := List (String × String)

/-- HashMap::get on a headers map. -/
def headersGet (headers : Headers) (key : String) : Option String :=
  (headers.find? (fun p => p.1 = key)).map (fun p => p.2)

/-- ASCII whitespace predicate used by the str::trim model below. -/
def isWS (c : Char) : Bool :=
  c = ' ' || c = '\t' || c = '\n' || c = '\r'

/-- Modelled from the Rust standard library: str::trim, restricted to the
ASCII whitespace that occurs in HTTP header values.  Written over the
character list so that it evaluates by kernel reduction. -/
def rustTrim (s : String) : String :=
  String.mk (((s.data.dropWhile isWS).reverse.dropWhile isWS).reverse)

/-- Splitting a character list on a separator; the result always has at
least one element, like Rust str::split. -/
def splitCharList (sep : Char) : List Char → List (List Char)
  | [] => [[]]
  | c :: rest =>
    let r := splitCharList sep rest
    if c = sep then [] :: r
    else (c :: r.headD []) :: r.tail

/-- Modelled from the Rust standard library: str::split on a single
character separator. -/
def rustSplit (s : String) (sep : Char) : List String :=
  (splitCharList sep s.data).map String.mk

/-- ASCII lowercase of one character. -/
def asciiLowerChar (c : Char) : Char :=
  if 65 ≤ c.toNat && c.toNat ≤ 90 then Char.ofNat (c.toNat + 32) else c

/-- ASCII lowercasing of a string, used where the source lowercases header
names and content types. -/
def asciiLower (s : String) : String :=
  String.mk (s.data.map asciiLowerChar)

/-- Suffix test over character lists, evaluating by kernel reduction. -/
def strEndsWith (s suffix : String) : Bool :=
  suffix.data.isSuffixOf s.data

/-- Prefix test over character lists, evaluating by kernel reduction. -/
def strStartsWith (s pre : String) : Bool :=
  pre.data.isPrefixOf s.data

/-- Drop the first n characters of a string. -/
def strDrop (s : String) (n : Nat) : String :=
  String.mk (s.data.drop n)

/-- One decoded UTF-8 scalar step; helper for the strict decoder below. -/
def isContByte (b : Nat) : Bool :=
  128 ≤ b && b < 192

/-- Modelled from the spec: strict UTF-8 decoding (String::from_utf8 of the
Rust standard library), section 4.1: attempt strict UTF-8 decode; fail on
invalid sequences.  Continuation bytes, overlong encodings, surrogates and
out of range code points are rejected. -/
def utf8DecodeAux : List Nat → Option (List Char)
  | [] => some []
  | b :: rest =>
    if b < 128 then
      (utf8DecodeAux rest).map (fun cs => Char.ofNat b :: cs)
    else if 194 ≤ b && b ≤ 223 then
      match rest with
      | b2 :: rest2 =>
        if isContByte b2 then
          (utf8DecodeAux rest2).map (fun cs => Char.ofNat ((b - 192) * 64 + (b2 - 128)) :: cs)
        else none
      | [] => none
    else if 224 ≤ b && b ≤ 239 then
      match rest with
      | b2 :: b3 :: rest2 =>
        let cp := (b - 224) * 4096 + (b2 - 128) * 64 + (b3 - 128)
        if isContByte b2 && isContByte b3 && decide (2048 ≤ cp) &&
            !(decide (55296 ≤ cp) && decide (cp ≤ 57343)) then
          (utf8DecodeAux rest2).map (fun cs => Char.ofNat cp :: cs)
        else none
      | _ => none
    else if 240 ≤ b && b ≤ 244 then
      match rest with
      | b2 :: b3 :: b4 :: rest2 =>
        let cp := (b - 240) * 262144 + (b2 - 128) * 4096 + (b3 - 128) * 64 + (b4 - 128)
        if isContByte b2 && isContByte b3 && isContByte b4 &&
            decide (65536 ≤ cp) && decide (cp ≤ 1114111) then
          (utf8DecodeAux rest2).map (fun cs => Char.ofNat cp :: cs)
        else none
      | _ => none
    else none

/-- Strict UTF-8 decode of a byte vector to a string. -/
def utf8Decode (bytes : List Nat) : Option String :=
  (utf8DecodeAux bytes).map String.mk

/-- Modelled from the spec: crate::util::text_encoding::convert_to_utf8
(repository code not included under src/), section 4.1: if the charset is
recognized, decode via that charset; on undecodable bytes fail with an
encoding error.  Only the utf-8 label is modelled; the claims settled here
never exercise another label. -/
def convert_to_utf8 (bytes : List Nat) (charset : String) : Except Err String :=
  if asciiLower charset = ("utf-8") then
    match utf8Decode bytes with
    | some s => .ok s
    | none => .error (.encodingError ("invalid data"))
  else
    .error (.encodingError ("unsupported charset"))

/-- Embeds get_source_from_bytes of file_fetcher.rs: given bytes and
optionally a charset, decode the bytes to a string. -/
def get_source_from_bytes (bytes : List Nat) (maybe_charset : Option String) :
    Except Err String :=
  match maybe_charset with
  | some charset => convert_to_utf8 bytes charset
  | none =>
    match utf8Decode bytes with
    | some s => .ok s
    | none => .error (.encodingError ("invalid utf-8 sequence"))

/-- Modelled from the spec: crate::util::text_encoding::detect_charset
(repository code not included under src/), section 4.1: inspect a BOM to
guess the charset; the guess is advisory and defaults to utf-8. -/
def detect_charset (bytes : List Nat) : String :=
  match bytes with
  | 254 :: 255 :: _ => ("utf-16be")
  | 255 :: 254 :: _ => ("utf-16le")
  | _ => ("utf-8")

/-- Modelled from the spec: deno_ast MediaType::from_specifier (external
crate), section 4.2: derive the media type solely from the path suffix of
the specifier. -/
def MediaType.from_specifier (specifier : Url) : MediaType :=
  let p := specifier.path
  if strEndsWith p (".ts") then .TypeScript
  else if strEndsWith p (".tsx") then .Tsx
  else if strEndsWith p (".js") then .JavaScript
  else if strEndsWith p (".jsx") then .Jsx
  else if strEndsWith p (".mjs") then .Mjs
  else if strEndsWith p (".cjs") then .Cjs
  else if strEndsWith p (".json") then .Json
  else if strEndsWith p (".wasm") then .Wasm
  else .Unknown

/-- Modelled from the spec: the content-type mapping also considers the
specifier; the path extension wins when unambiguous (a .ts path under
application/javascript is still TypeScript), section 4.2. -/
def mapJsLikeExtension (specifier : Url) (default : MediaType) : MediaType :=
  let p := specifier.path
  if strEndsWith p (".ts") then .TypeScript
  else if strEndsWith p (".tsx") then .Tsx
  else if strEndsWith p (".js") then .JavaScript
  else if strEndsWith p (".jsx") then .Jsx
  else if strEndsWith p (".mjs") then .Mjs
  else if strEndsWith p (".cjs") then .Cjs
  else default

/-- Modelled from the spec: deno_ast MediaType::from_content_type
(external crate), section 4.2: the first token of the content type header,
trimmed, determines the media type via a mapping that also considers the
specifier; unrecognized values fall back to the path suffix. -/
def MediaType.from_content_type (specifier : Url) (content_type : String) : MediaType :=
  match asciiLower (rustTrim content_type) with
  | "application/typescript" => mapJsLikeExtension specifier .TypeScript
  | "text/typescript" => mapJsLikeExtension specifier .TypeScript
  | "application/x-typescript" => mapJsLikeExtension specifier .TypeScript
  | "video/mp2t" => mapJsLikeExtension specifier .TypeScript
  | "application/javascript" => mapJsLikeExtension specifier .JavaScript
  | "text/javascript" => mapJsLikeExtension specifier .JavaScript
  | "application/ecmascript" => mapJsLikeExtension specifier .JavaScript
  | "application/node" => mapJsLikeExtension specifier .JavaScript
  | "text/jsx" => mapJsLikeExtension specifier .Jsx
  | "text/tsx" => mapJsLikeExtension specifier .Tsx
  | "application/json" => .Json
  | "text/json" => .Json
  | "application/wasm" => .Wasm
  | _ => MediaType.from_specifier specifier

/-- The charset scan over the remaining semicolon separated tokens of the
content type header: each token is trimmed and the first one of the form
charset=X yields X (file_fetcher.rs map_content_type). -/
def charsetFromParams (params : List String) : Option String :=
  params.findSome? (fun s =>
    let t := rustTrim s
    if strStartsWith t ("charset=") then some (strDrop t 8) else none)

/-- Embeds map_content_type of file_fetcher.rs: resolve a media type and
optionally the charset from a module specifier and the value of a content
type header. -/
def map_content_type (specifier : Url) (maybe_content_type : Option String) :
    MediaType × Option String :=
  match maybe_content_type with
  | some content_type =>
    let content_types := rustSplit content_type ';'
    let first := content_types.headD ("")
    let media_type := MediaType.from_content_type specifier first
    let charset := charsetFromParams content_types.tail
    (media_type, charset)
  | none => (MediaType.from_specifier specifier, none)

/-- Embeds the File structure of file_fetcher.rs: a fully materialized
source artifact. -/
structure File where
  maybe_types : Option String
  media_type : MediaType
  source : String
  specifier : Url
  maybe_headers : Option Headers
  deriving DecidableEq, Repr

/-- The in-process session cache: HashMap from specifier to File behind a
mutex in the source, modelled as an association list where insertion
replaces the previous binding. -/
abbrev FileCache := List (Url × File)

/-- FileCache::get: first binding for the specifier, cloned. -/
def FileCache.get : FileCache → Url → Option File
  | [], _ => none
  | p :: rest, s => if p.1 = s then some p.2 else FileCache.get rest s

/-- Removal of all bindings of one specifier; helper for the HashMap
insert model. -/
def FileCache.removeKey : FileCache → Url → FileCache
  | [], _ => []
  | p :: rest, s =>
    if p.1 = s then FileCache.removeKey rest s
    else p :: FileCache.removeKey rest s

/-- The map after a HashMap::insert: the new binding replaces any previous
binding of the same specifier. -/
def FileCache.insertEntry (c : FileCache) (s : Url) (f : File) : FileCache :=
  (s, f) :: FileCache.removeKey c s

/-- Embeds FileFetcher::insert_cached: seed the session cache, returning
the prior binding like HashMap::insert does. -/
def insert_cached (c : FileCache) (file : File) : FileCache × Option File :=
  (FileCache.insertEntry c file.specifier file, FileCache.get c file.specifier)

/-- Embeds Url::to_file_path (external url crate) for file URLs with an
empty host: file:///a/b has path part ///a/b and denotes /a/b.  Other
shapes yield the uri error raised in fetch_local. -/
def to_file_path (specifier : Url) : Except Err String :=
  if specifier.scheme = ("file") && strStartsWith specifier.path ("///") then
    .ok (strDrop specifier.path 2)
  else
    .error (.uriError ("Invalid file path."))

/-- Embeds fetch_local of file_fetcher.rs: fetch a source file from the
local file system.  The file system read is a functional parameter: fs
maps a path to its bytes or a read error. -/
def fetch_local (fs : String → Except Err (List Nat)) (specifier : Url) :
    Except Err File :=
  match to_file_path specifier with
  | .error e => .error e
  | .ok local_path =>
    match fs local_path with
    | .error e => .error e
    | .ok bytes =>
      let charset := detect_charset bytes
      match get_source_from_bytes bytes (some charset) with
      | .error e => .error e
      | .ok source =>
        .ok { maybe_types := none
              media_type := MediaType.from_specifier specifier
              source := source
              specifier := specifier
              maybe_headers := none }

/-- Embeds FileFetcher::get_source: session cache lookup, and for the file
scheme only, a fallthrough to a local read whose failure is discarded. -/
def get_source (fs : String → Except Err (List Nat)) (cache : FileCache)
    (specifier : Url) : Option File :=
  match FileCache.get cache specifier with
  | none =>
    if specifier.scheme = ("file") then
      match fetch_local fs specifier with
      | .ok file => some file
      | .error _ => none
    else none
  | some file => some file

/-- Embeds build_remote_file of file_fetcher.rs: creates a File for a
remote response from its bytes and captured headers. -/
def build_remote_file (specifier : Url) (bytes : List Nat) (headers : Headers) :
    Except Err File :=
  let maybe_content_type := headersGet headers ("content-type")
  let mc := map_content_type specifier maybe_content_type
  match get_source_from_bytes bytes mc.2 with
  | .error e => .error e
  | .ok source =>
    let maybe_types :=
      match mc.1 with
      | .JavaScript => headersGet headers ("x-typescript-types")
      | .Cjs => headersGet headers ("x-typescript-types")
      | .Mjs => headersGet headers ("x-typescript-types")
      | .Jsx => headersGet headers ("x-typescript-types")
      | _ => none
    .ok { maybe_types := maybe_types
          media_type := mc.1
          source := source
          specifier := specifier
          maybe_headers := some headers }

/-- One entry of the persistent HTTP cache: the stored response headers
and, when a body file exists, its bytes.  The cache adapter itself is an
external collaborator; reads and writes are modelled as pure state. -/
structure HttpEntry where
  headers : Headers
  body : Option (List Nat)
  deriving DecidableEq, Repr

/-- The persistent HTTP cache state, keyed by specifier. -/
abbrev HttpCacheState := List (Url × HttpEntry)

/-- Metadata and body read, keyed by specifier. -/
def httpCacheLookup : HttpCacheState → Url → Option HttpEntry
  | [], _ => none
  | p :: rest, s => if p.1 = s then some p.2 else httpCacheLookup rest s

/-- Removal of all entries of one specifier; helper for the cache write
model. -/
def httpCacheRemove : HttpCacheState → Url → HttpCacheState
  | [], _ => []
  | p :: rest, s =>
    if p.1 = s then httpCacheRemove rest s
    else p :: httpCacheRemove rest s

/-- HttpCache::set: store headers and body under the specifier. -/
def httpCacheSet (hc : HttpCacheState) (specifier : Url) (headers : Headers)
    (body : List Nat) : HttpCacheState :=
  (specifier, { headers := headers, body := some body }) :: httpCacheRemove hc specifier

/-- Left part of a string before the first occurrence of a separator, and
the remainder, used by the URL parser below. -/
def splitOnceChar (s : String) (sep : Char) : String × Option String :=
  match splitCharList sep s.data with
  | [] => (s, none)
  | [x] => (String.mk x, none)
  | x :: rest => (String.mk x, some (String.mk ((rest.map (fun l => l ++ [sep])).flatten.dropLast)))

/-- Modelled from the spec: parsing an absolute URL string into scheme,
path, query and fragment (url crate, external). -/
def parseUrl (s : String) : Url :=
  let (noFrag, frag) := splitOnceChar s '#'
  let (noQuery, query) := splitOnceChar noFrag '?'
  let (scheme, rest) := splitOnceChar noQuery ':'
  { scheme := scheme, path := rest.getD (""), query := query, fragment := frag }

/-- Modelled from the spec: deno_core::resolve_import resolves a redirect
target against the current specifier (external crate).  An absolute target
containing :// parses as itself; a root relative target replaces the path
below the authority; anything else replaces the last path segment.  The
claims settled here only exercise absolute targets. -/
def resolve_import (target : String) (base : Url) : Url :=
  if (rustSplit target ':').length ≥ 2 then parseUrl target
  else if strStartsWith target ("/") then
    { base with path := String.mk ((base.path.data.drop 2).takeWhile (fun c => c ≠ '/')
        |> (fun host => ("//").data ++ host ++ target.data)), query := none, fragment := none }
  else
    { base with path := String.mk ((base.path.data.reverse.dropWhile (fun c => c ≠ '/')).reverse
        ++ target.data), query := none, fragment := none }

/-- Embeds FileFetcher::fetch_cached of file_fetcher.rs: fetch a cached
remote file, following stored redirect entries recursively.  The Nat fuel
only drives structural recursion; the wrapper below supplies enough fuel
for every possible run, since each recursive call decrements the redirect
limit and the function stops as soon as the limit is negative. -/
def fetchCachedF (hc : HttpCacheState) : Nat → Url → Int → Except Err (Option File)
  | 0, _, _ => .error (.generic ("fuel exhausted"))
  | fuel + 1, specifier, redirect_limit =>
    if redirect_limit < 0 then .error (.custom ("Http") ("Too many redirects."))
    else
      match httpCacheLookup hc specifier with
      | none => .ok none
      | some metadata =>
        match headersGet metadata.headers ("location") with
        | some redirect_to =>
          fetchCachedF hc fuel (resolve_import redirect_to specifier) (redirect_limit - 1)
        | none =>
          match metadata.body with
          | none => .ok none
          | some bytes =>
            match build_remote_file specifier bytes metadata.headers with
            | .error e => .error e
            | .ok file => .ok (some file)

/-- fetch_cached with adequate fuel: at most redirect_limit + 2 calls ever
happen before the guard stops the recursion. -/
def fetch_cached (hc : HttpCacheState) (specifier : Url) (redirect_limit : Int) :
    Except Err (Option File) :=
  fetchCachedF hc ((redirect_limit + 1).toNat + 1) specifier redirect_limit

/-- Embeds the FetchOnceResult enum of file_fetcher.rs. -/
inductive FetchOnceResult where
  | Code (bytes : List Nat) (headers : Headers)
  | NotModified
  | Redirect (url : Url) (headers : Headers)
  | RequestError (msg : String)
  | ServerError (status : Nat)
  deriving DecidableEq, Repr

/-- The outcome of one send of the underlying HTTP client (reqwest,
external): either a transport failure carrying its connect and timeout
classification, or a response with status, raw headers in iteration order,
and body bytes. -/
inductive SendOutcome where
  | failure (isConnect : Bool) (isTimeout : Bool) (msg : String)
  | success (status : Nat) (headers : List (String × String)) (body : List Nat)
  deriving DecidableEq, Repr

/-- The distinct keys of a raw header list in first occurrence order;
reqwest header names are already lowercase. -/
def headerKeys : List (String × String) → List String
  | [] => []
  | p :: rest =>
    let ks := headerKeys rest
    p.1 :: ks.filter (fun k => decide (¬ k = p.1))

/-- Comma join of all values of one key, in response iteration order, as
fetch_once builds result_headers. -/
def joinHeaderValues (headers : List (String × String)) (key : String) : String :=
  String.intercalate (",") ((headers.filter (fun p => decide (p.1 = key))).map (fun p => p.2))

/-- The captured header map built by fetch_once: one entry per distinct
key, values comma joined. -/
def captureHeaders (headers : List (String × String)) : Headers :=
  (headerKeys headers).map (fun k => (k, joinHeaderValues headers k))

/-- Modelled from the spec: crate::http_util::resolve_redirect_from_response
(repository code not included under src/) reads the location header of the
response and resolves it against the request URL; a redirection without a
location header is an error. -/
def resolve_redirect (url : Url) (headers : List (String × String)) : Except Err Url :=
  match headersGet (captureHeaders headers) ("location") with
  | some location => .ok (resolve_import location url)
  | none => .error (.generic ("Redirection response without location header"))

/-- Embeds fetch_once of file_fetcher.rs: perform one non redirecting GET
and classify the outcome.  The request headers (Accept, If-None-Match,
Authorization) only shape the outbound request, which the SendOutcome
argument abstracts; the x-deno-warning log is a side effect without
influence on the result. -/
def fetch_once (url : Url) (outcome : SendOutcome) : Except Err FetchOnceResult :=
  match outcome with
  | .failure isConnect isTimeout msg =>
    if isConnect || isTimeout then .ok (.RequestError msg)
    else .error (.generic msg)
  | .success status headers body =>
    if status = 304 then .ok .NotModified
    else
      let result_headers := captureHeaders headers
      if 300 ≤ status && status ≤ 399 then
        match resolve_redirect url headers with
        | .ok new_url => .ok (.Redirect new_url result_headers)
        | .error e => .error e
      else if 500 ≤ status && status ≤ 599 then
        .ok (.ServerError status)
      else if 400 ≤ status && status ≤ 499 then
        if status = 404 then
          .error (.custom ("NotFound") (("Import ") ++ url.asStr ++ (" failed, not found.")))
        else
          .error (.generic (("Import ") ++ url.asStr ++ (" failed: ") ++ toString status))
      else .ok (.Code body result_headers)

/-- Embeds the CacheSetting enum (crate::args, re-exported by
file_fetcher.rs). -/
inductive CacheSetting where
  | Only
  | ReloadAll
  | ReloadSome (list : List String)
  | RespectHeaders
  | Use
  deriving DecidableEq, Repr

/-- Path separator predicate for the PathBuf model below. -/
def isSlash (c : Char) : Bool :=
  c = '/'

/-- Modelled from the Rust standard library: the parent of a Path built
from a string, under Unix semantics, applied to reversed character lists.
Trailing separators are skipped, then the last component and its separator
run are removed; a path without remaining components has no parent, so
PathBuf::pop returns false there. -/
def parentRev (r : List Char) : Option (List Char) :=
  let r1 := r.dropWhile isSlash
  match r1 with
  | [] => none
  | _ :: _ => some ((r1.dropWhile (fun c => !(isSlash c))).dropWhile isSlash)

/-- The loop of the ReloadSome branch of should_use_cache: compare the
current path string against the list, then pop the last segment, until
pop fails.  Structural fuel; the wrapper supplies length + 1 which is
always enough because every pop strictly shortens the string. -/
def pathPopLoopF (list : List String) : Nat → List Char → Bool
  | 0, _ => true
  | fuel + 1, r =>
    if list.contains (String.mk r.reverse) then false
    else
      match parentRev r with
      | none => true
      | some r2 => pathPopLoopF list fuel r2

/-- The pop loop entered on the full query stripped URL string. -/
def pathPopLoop (list : List String) (s : String) : Bool :=
  pathPopLoopF list (s.data.length + 1) s.data.reverse

/-- Embeds FileFetcher::should_use_cache of file_fetcher.rs.  The RFC 7234
freshness evaluation of RespectHeaders lives in crate::http_util
(CacheSemantics, repository code not included under src/); it is modelled
from the spec as the fresh oracle consulted only when stored metadata
exists, with a failed metadata read counting as 'do not use cache'. -/
def should_use_cache (fresh : Url → Bool) (hc : HttpCacheState) (specifier : Url)
    (cache_setting : CacheSetting) : Bool :=
  match cache_setting with
  | .ReloadAll => false
  | .Use => true
  | .Only => true
  | .RespectHeaders =>
    match httpCacheLookup hc specifier with
    | none => false
    | some _ => fresh specifier
  | .ReloadSome list =>
    let url1 : Url := { specifier with fragment := none }
    if list.contains url1.asStr then false
    else
      let url2 : Url := { url1 with query := none }
      pathPopLoop list url2.asStr

/-- Embeds handle_request_or_server_error of file_fetcher.rs: retry once
after a 50 ms sleep, and bail with a descriptive error otherwise.  The
mutation of the retried flag becomes the returned flag; the sleep becomes
the returned duration in milliseconds. -/
def handle_request_or_server_error (retried : Bool) (specifier : Url)
    (err_str : String) : Except Err (Bool × Nat) :=
  if retried = false then .ok (true, 50)
  else .error (.generic (("Import ") ++ specifier.asStr ++ (" failed: ") ++ err_str))

/-- The outcome of a fetch, including the Rust panic of the unwrap on the
NotModified branch, modelled as the crash constructor. -/
inductive Outcome where
  | ok (file : File)
  | err (e : Err)
  | crash
  deriving DecidableEq, Repr

/-- Outcome of an Except valued acquisition. -/
def outcomeOf : Except Err File → Outcome
  | .ok file => .ok file
  | .error e => .err e

/-- The two positions of the remote state machine of fetch_remote: the
entry guards of one hop, and the retry loop around fetch_once. -/
inductive Phase where
  | entry
  | inloop (retried : Bool)
  deriving DecidableEq, Repr

/-- Embeds FileFetcher::fetch_remote of file_fetcher.rs as a state machine
over a scripted list of fetch_once results (the stream): entry checks the
redirect limit, re-checks the permission, consults the cache per
should_use_cache and handles CacheSetting::Only; the loop consumes one
scripted result per fetch_once call, persists redirect and code responses
into the HTTP cache, recurses on redirects with the budget decremented,
and retries transient outcomes through handle_request_or_server_error.
The result carries the final HTTP cache state and the list of sleeps in
milliseconds.  The Nat fuel only drives structural recursion; the wrapper
supplies 2 * stream.length + 2 which the call pattern never exhausts
(entry and loop alternate, and every second step consumes one stream
element). -/
def fetchRemoteF (perm : Url → Bool) (cache_setting : CacheSetting) (fresh : Url → Bool) :
    Nat → List (Except Err FetchOnceResult) → Phase → Url → Int → HttpCacheState →
    Outcome × HttpCacheState × List Nat
  | 0, _, _, _, _, hc => (.err (.generic ("fuel exhausted")), hc, [])
  | fuel + 1, stream, .entry, specifier, redirect_limit, hc =>
    if redirect_limit < 0 then
      (.err (.custom ("Http") ("Too many redirects.")), hc, [])
    else if perm specifier = false then
      (.err (.custom ("Permission") ("Requires net access")), hc, [])
    else
      match (if should_use_cache fresh hc specifier cache_setting
             then fetch_cached hc specifier redirect_limit
             else .ok none) with
      | .error e => (.err e, hc, [])
      | .ok (some file) => (.ok file, hc, [])
      | .ok none =>
        if cache_setting = CacheSetting.Only then
          (.err (.custom ("NotCached") ("Specifier not found in cache")), hc, [])
        else
          fetchRemoteF perm cache_setting fresh fuel stream (.inloop false)
            specifier redirect_limit hc
  | fuel + 1, stream, .inloop retried, specifier, redirect_limit, hc =>
    match stream with
    | [] => (.err (.generic ("no scripted response")), hc, [])
    | result :: rest =>
      match result with
      | .error e => (.err e, hc, [])
      | .ok .NotModified =>
        match fetch_cached hc specifier 10 with
        | .error e => (.err e, hc, [])
        | .ok none => (.crash, hc, [])
        | .ok (some file) => (.ok file, hc, [])
      | .ok (.Redirect redirect_url headers) =>
        let hc2 := httpCacheSet hc specifier headers []
        fetchRemoteF perm cache_setting fresh fuel rest .entry
          redirect_url (redirect_limit - 1) hc2
      | .ok (.Code bytes headers) =>
        let hc2 := httpCacheSet hc specifier headers bytes
        match build_remote_file specifier bytes headers with
        | .error e => (.err e, hc2, [])
        | .ok file => (.ok file, hc2, [])
      | .ok (.RequestError msg) =>
        match handle_request_or_server_error retried specifier msg with
        | .error e => (.err e, hc, [])
        | .ok (retried2, ms) =>
          let r := fetchRemoteF perm cache_setting fresh fuel rest (.inloop retried2)
            specifier redirect_limit hc
          (r.1, r.2.1, ms :: r.2.2)
      | .ok (.ServerError status) =>
        match handle_request_or_server_error retried specifier (toString status) with
        | .error e => (.err e, hc, [])
        | .ok (retried2, ms) =>
          let r := fetchRemoteF perm cache_setting fresh fuel rest (.inloop retried2)
            specifier redirect_limit hc
          (r.1, r.2.1, ms :: r.2.2)

/-- fetch_remote with adequate fuel and the initial phase. -/
def fetch_remote (perm : Url → Bool) (cache_setting : CacheSetting) (fresh : Url → Bool)
    (stream : List (Except Err FetchOnceResult)) (specifier : Url)
    (redirect_limit : Int) (hc : HttpCacheState) : Outcome × HttpCacheState × List Nat :=
  fetchRemoteF perm cache_setting fresh (2 * stream.length + 2) stream .entry
    specifier redirect_limit hc

/-- A blob object of the blob store collaborator (deno_web, external):
its media type and its bytes. -/
structure Blob where
  media_type : String
  bytes : List Nat
  deriving DecidableEq, Repr

/-- Embeds fetch_blob_url of file_fetcher.rs: resolve the specifier in the
blob store, fail NotFound when missing, otherwise build the artifact with
the blob media type as content-type. -/
def fetch_blob_url (blob_store : Url → Option Blob) (specifier : Url) :
    Except Err File :=
  match blob_store specifier with
  | none => .error (.custom ("NotFound") ("Blob URL not found"))
  | some blob =>
    let content_type := blob.media_type
    let mc := map_content_type specifier (some content_type)
    match get_source_from_bytes blob.bytes mc.2 with
    | .error e => .error e
    | .ok source =>
      .ok { maybe_types := none
            media_type := mc.1
            source := source
            specifier := specifier
            maybe_headers := some [(("content-type"), content_type)] }

/-- Embeds fetch_data_url of file_fetcher.rs.  The decoding of the data
URL itself (get_source_from_data_url, via the external data_url crate) is
a functional parameter returning the decoded source and the mime type. -/
def fetch_data_url (data_decode : Url → Except Err (String × String)) (specifier : Url) :
    Except Err File :=
  match data_decode specifier with
  | .error e => .error e
  | .ok (source, content_type) =>
    let mc := map_content_type specifier (some content_type)
    .ok { maybe_types := none
          media_type := mc.1
          source := source
          specifier := specifier
          maybe_headers := some [(("content-type"), content_type)] }

/-- Embeds the SUPPORTED_SCHEMES constant of file_fetcher.rs. -/
def SUPPORTED_SCHEMES : List String :=
  [("data"), ("blob"), ("file"), ("http"), ("https")]

/-- Embeds get_validated_scheme of file_fetcher.rs. -/
def get_validated_scheme (specifier : Url) : Except Err String :=
  if SUPPORTED_SCHEMES.contains specifier.scheme then .ok specifier.scheme
  else .error (.generic (("Unsupported scheme ") ++ specifier.scheme))

/-- The FileFetcher fields that the embedded operations consult, together
with the scripted collaborators: the file system, the data URL decoder,
the blob store, the RFC 7234 freshness oracle and the stream of scripted
fetch_once results. -/
structure FetchEnv where
  allow_remote : Bool
  cache_setting : CacheSetting
  fresh : Url → Bool
  fs : String → Except Err (List Nat)
  data_decode : Url → Except Err (String × String)
  blob_store : Url → Option Blob
  stream : List (Except Err FetchOnceResult)

/-- Embeds the FetchOptions structure of file_fetcher.rs; the permission
predicate stands for Permissions::check_specifier. -/
structure FetchOptions where
  specifier : Url
  permissions : Url → Bool
  maybe_accept : Option String
  maybe_cache_setting : Option CacheSetting

/-- The mutable state the fetcher owns: the session cache and the
persistent HTTP cache contents. -/
structure FetcherState where
  cache : FileCache
  http : HttpCacheState
  deriving DecidableEq, Repr

/-- Embeds FileFetcher::fetch_with_options of file_fetcher.rs: scheme
validation, permission check, session cache probe, scheme dispatch to the
local, data, blob and remote paths, and the session cache insert on remote
success. -/
def fetch_with_options (env : FetchEnv) (st : FetcherState) (options : FetchOptions) :
    Outcome × FetcherState :=
  let specifier := options.specifier
  match get_validated_scheme specifier with
  | .error e => (.err e, st)
  | .ok scheme =>
    if options.permissions specifier = false then
      (.err (.custom ("Permission") ("Requires read access")), st)
    else
      match FileCache.get st.cache specifier with
      | some file => (.ok file, st)
      | none =>
        if scheme = ("file") then
          (outcomeOf (fetch_local env.fs specifier), st)
        else if scheme = ("data") then
          (outcomeOf (fetch_data_url env.data_decode specifier), st)
        else if scheme = ("blob") then
          (outcomeOf (fetch_blob_url env.blob_store specifier), st)
        else if env.allow_remote = false then
          (.err (.custom ("NoRemote") ("A remote specifier was requested with no-remote")), st)
        else
          let cache_settings := options.maybe_cache_setting.getD env.cache_setting
          let r := fetch_remote options.permissions cache_settings env.fresh env.stream
            specifier 10 st.http
          match r.1 with
          | .ok file =>
            (.ok file, { cache := FileCache.insertEntry st.cache specifier file, http := r.2.1 })
          | out => (out, { cache := st.cache, http := r.2.1 })

/-- Embeds FileFetcher::fetch of file_fetcher.rs: fetch_with_options with
no accept header and the default cache setting. -/
def fetch (env : FetchEnv) (st : FetcherState) (specifier : Url)
    (permissions : Url → Bool) : Outcome × FetcherState :=
  fetch_with_options env st
    { specifier := specifier, permissions := permissions,
      maybe_accept := none, maybe_cache_setting := none }

/-! Concrete instantiations used by the theorems below: permissive
permissions, a never fresh clock oracle, an always failing file system,
and the specifiers, scripted streams and expected artifacts of the
individual scenarios. -/

/-- A permission predicate that grants everything. -/
def permAll : Url → Bool := fun _ => true

/-- A freshness oracle under which nothing is fresh. -/
def freshNone : Url → Bool := fun _ => false

/-- A file system on which every read fails. -/
def fsNone : String → Except Err (List Nat) := fun _ => .error (.ioError ("missing"))

/-- A data URL decoder that always fails. -/
def dataNone : Url → Except Err (String × String) := fun _ => .error (.generic ("no data"))

/-- An empty blob store. -/
def blobNone : Url → Option Blob := fun _ => none

/-- The remote specifier of the redirect budget scenario. -/
def uC2 : Url := ⟨("https"), ("//h/x.ts"), none, none⟩

/-- The headers carried by each scripted redirect response. -/
def redirectHeaders : Headers := [(("location"), ("https://h/x.ts"))]

/-- A scripted remote interaction: k redirect responses, then one 200
carrying the single byte x with no headers. -/
def redirStream (k : Nat) : List (Except Err FetchOnceResult) :=
  List.replicate k (.ok (.Redirect uC2 redirectHeaders)) ++ [.ok (.Code [120] [])]

/-- The artifact produced by the terminal 200 of the redirect scenario. -/
def fileC2 : File := ⟨none, .TypeScript, ("x"), uC2, some []⟩

/-- The environment of the redirect budget scenario: remote allowed,
ReloadAll so that the persistent cache is never consulted. -/
def envC2 (k : Nat) : FetchEnv :=
  { allow_remote := true, cache_setting := .ReloadAll, fresh := freshNone,
    fs := fsNone, data_decode := dataNone, blob_store := blobNone,
    stream := redirStream k }

/-- The fetch options of the redirect budget scenario. -/
def optC2 : FetchOptions :=
  { specifier := uC2, permissions := permAll, maybe_accept := none,
    maybe_cache_setting := none }

/-- The too many redirects error of file_fetcher.rs. -/
def tooManyRedirects : Err := .custom ("Http") ("Too many redirects.")

/-- The remote specifier of the retry scenario. -/
def uC3 : Url := ⟨("https"), ("//h/y.ts"), none, none⟩

/-- The transport error message of the scripted transient failures. -/
def transMsg : String := ("connection reset")

/-- A scripted remote interaction: k transient failures, then one 200
carrying the single byte x with no headers. -/
def transStream (k : Nat) : List (Except Err FetchOnceResult) :=
  List.replicate k (.ok (.RequestError transMsg)) ++ [.ok (.Code [120] [])]

/-- The artifact produced by the terminal 200 of the retry scenario. -/
def fileC3 : File := ⟨none, .TypeScript, ("x"), uC3, some []⟩

/-- The descriptive error produced on the second consecutive transient
failure of the retry scenario. -/
def errC3 : Err := .generic (("Import ") ++ uC3.asStr ++ (" failed: ") ++ transMsg)

/-- The remote specifier of the 304 inconsistency scenario. -/
def uC4 : Url := ⟨("https"), ("//h/m.ts"), none, none⟩

/-- The data URL of the session cache counterexample. -/
def uData : Url := ⟨("data"), ("application/typescript;base64,ZXhwb3J0IHt9Ow=="), none, none⟩

/-- The environment of the session cache counterexample: the data URL
decoder yields a TypeScript source. -/
def envData : FetchEnv :=
  { allow_remote := true, cache_setting := .Use, fresh := freshNone,
    fs := fsNone, data_decode := fun _ => .ok (("export x;"), ("application/typescript")),
    blob_store := blobNone, stream := [] }

/-- The artifact materialized from the data URL. -/
def fileData : File :=
  ⟨none, .TypeScript, ("export x;"), uData,
    some [(("content-type"), ("application/typescript"))]⟩

/-- The fetch options of the session cache counterexample. -/
def optData : FetchOptions :=
  { specifier := uData, permissions := permAll, maybe_accept := none,
    maybe_cache_setting := none }

/-- The environment of the confirmed remote insertion scenario. -/
def envW : FetchEnv :=
  { allow_remote := true, cache_setting := .Use, fresh := freshNone,
    fs := fsNone, data_decode := dataNone, blob_store := blobNone,
    stream := [.ok (.Code [120] [])] }

/-- The specifier of the confirmed remote insertion scenario. -/
def uW : Url := ⟨("https"), ("//h/w.ts"), none, none⟩

/-- The artifact of the confirmed remote insertion scenario. -/
def fileW : File := ⟨none, .TypeScript, ("x"), uW, some []⟩

/-- The fetch options of the confirmed remote insertion scenario. -/
def optW : FetchOptions :=
  { specifier := uW, permissions := permAll, maybe_accept := none,
    maybe_cache_setting := none }

/-- The fetcher state after the confirmed remote insertion scenario. -/
def stW2 : FetcherState :=
  { cache := [(uW, fileW)], http := [(uW, { headers := [], body := some [120] })] }

/-- The specifiers of the ReloadSome boundary scenario. -/
def uAB : Url := ⟨("https"), ("//ex.com/a/b.ts"), none, none⟩

/-- The directory specifier of the ReloadSome boundary scenario. -/
def uAdir : Url := ⟨("https"), ("//ex.com/a/"), none, none⟩

/-- The unrelated specifier of the ReloadSome boundary scenario. -/
def uBC : Url := ⟨("https"), ("//ex.com/b/c.ts"), none, none⟩

/-- The reload list of the ReloadSome boundary scenario. -/
def reloadList : List String := [("https://ex.com/a/")]

/-- A file scheme artifact for the session cache invariant scenarios. -/
def fileLocal : File :=
  ⟨none, .TypeScript, ("a"), ⟨("file"), ("///tmp/x.ts"), none, none⟩, none⟩

/-- A remote artifact for the insert then get round trip. -/
def fileC9 : File :=
  ⟨none, .TypeScript, ("x"), ⟨("https"), ("//ex.com/m.ts"), none, none⟩, some []⟩

/-- A file specifier whose local read fails. -/
def uC10 : Url := ⟨("file"), ("///tmp/missing.ts"), none, none⟩

/-- The specifier of the content type resolution examples. -/
def uTs : Url := ⟨("https"), ("//ex.com/a.ts"), none, none⟩

end FileFetcherModel

/-! Theorems.  Helper lemmas come first, then one theorem per claim with
its witness or counterexample. -/

namespace FileFetcherModel

theorem fileCacheGetInsertSelf (c : FileCache) (s : Url) (f : File) :
    FileCache.get (FileCache.insertEntry c s f) s = some f := by
  simp [FileCache.insertEntry, FileCache.get]

theorem fileCacheGetRemoveNe (c : FileCache) (k s : Url) (h : ¬ s = k) :
    FileCache.get (FileCache.removeKey c k) s = FileCache.get c s := by
  induction c with
  | nil => rfl
  | cons p rest ih =>
    by_cases hp : p.1 = k
    · simp only [FileCache.removeKey]
      rw [if_pos hp, ih]
      have hps : ¬ p.1 = s := by
        rw [hp]
        exact fun he => h he.symm
      simp only [FileCache.get]
      rw [if_neg hps]
    · simp only [FileCache.removeKey]
      rw [if_neg hp]
      simp only [FileCache.get]
      rw [ih]

theorem fileCacheGetInsertNe (c : FileCache) (k s : Url) (f : File) (h : ¬ s = k) :
    FileCache.get (FileCache.insertEntry c k f) s = FileCache.get c s := by
  have hks : ¬ (k = s) := fun he => h he.symm
  simp only [FileCache.insertEntry, FileCache.get]
  rw [if_neg hks, fileCacheGetRemoveNe c k s h]

/-- C4 (code bug): when fetch_once yields NotModified and the fetch_cached
re-read finds no cached entry, fetch_remote reaches the unwrap of a None
value, a Rust panic, modelled as the crash outcome; the claim and the spec
require an internal inconsistency error instead. -/
theorem c4_notmodified_missing_cache_panics :
    (fetch_remote permAll .ReloadAll freshNone [.ok .NotModified] uC4 10 []).1
      = Outcome.crash := by decide

/-- C9: inserting an artifact with insert_cached and then calling
get_source on its specifier returns exactly the inserted artifact, for
every artifact whose specifier scheme is not file. -/
theorem c9_insert_then_get_source (fs : String → Except Err (List Nat))
    (c : FileCache) (file : File) (h : ¬ file.specifier.scheme = ("file")) :
    get_source fs (insert_cached c file).1 file.specifier = some file := by
  simp [get_source, insert_cached, fileCacheGetInsertSelf]

/-- C9 witness: the round trip evaluated on a concrete remote artifact. -/
theorem c9_insert_then_get_source_witness :
    get_source fsNone (insert_cached [] fileC9).1 fileC9.specifier = some fileC9 :=
  c9_insert_then_get_source fsNone [] fileC9 (by decide)

/-- C10: get_source never propagates an error: on a file scheme specifier
that is not session cached and whose local read fails, it returns none,
discarding the failure reason. -/
theorem c10_get_source_swallows_local_errors (fs : String → Except Err (List Nat))
    (cache : FileCache) (specifier : Url) (e : Err)
    (h1 : specifier.scheme = ("file"))
    (h2 : FileCache.get cache specifier = none)
    (h3 : fetch_local fs specifier = .error e) :
    get_source fs cache specifier = none := by
  simp [get_source, h1, h2, h3]

/-- C10 witness: a concrete missing file. -/
theorem c10_get_source_swallows_local_errors_witness :
    get_source fsNone [] uC10 = none :=
  c10_get_source_swallows_local_errors fsNone [] uC10 (.ioError ("missing"))
    (by decide) rfl (by decide)

/-- C8 counterexample: insert_cached stores a file scheme artifact in the
session cache verbatim, so after the one operation sequence consisting of
that insert the cache does contain an entry whose specifier has scheme
file, contradicting the claim. -/
theorem c8_insert_cached_file_scheme_cex :
    FileCache.get (insert_cached [] fileLocal).1 fileLocal.specifier
      = some fileLocal := by decide

/-- C8 (amended): fetch_with_options never inserts a file scheme specifier
into the session cache: if the cache has no file scheme entry before the
call, it has none after; only insert_cached, which stores any artifact
unconditionally, can introduce one. -/
theorem c8_fetch_preserves_no_file_entries (env : FetchEnv) (st : FetcherState)
    (options : FetchOptions)
    (hinv : ∀ s : Url, s.scheme = ("file") → FileCache.get st.cache s = none) :
    ∀ s : Url, s.scheme = ("file") →
      FileCache.get (fetch_with_options env st options).2.cache s = none := by
  intro s hs
  simp only [fetch_with_options]
  split
  next e heq => exact hinv s hs
  next scheme heq =>
    have hscheme : scheme = options.specifier.scheme := by
      unfold get_validated_scheme at heq
      split at heq
      · cases heq
        rfl
      · exact Except.noConfusion heq
    split
    next hperm => exact hinv s hs
    next hperm =>
      split
      next file hcache => exact hinv s hs
      next hcache =>
        split
        next hfile => exact hinv s hs
        next hfile =>
          split
          next hdata => exact hinv s hs
          next hdata =>
            split
            next hblob => exact hinv s hs
            next hblob =>
              split
              next hrem => exact hinv s hs
              next hrem =>
                split
                next file heq2 =>
                  have hne : ¬ s = options.specifier := by
                    intro he
                    apply hfile
                    rw [hscheme, ← he]
                    exact hs
                  show FileCache.get
                    (FileCache.insertEntry st.cache options.specifier file) s = none
                  rw [fileCacheGetInsertNe _ _ _ _ hne]
                  exact hinv s hs
                next out heq2 => exact hinv s hs

/-- C8 amended witness: starting from the empty cache, a concrete remote
fetch leaves no file scheme entry behind. -/
theorem c8_fetch_preserves_no_file_entries_witness :
    FileCache.get (fetch_with_options envW ⟨[], []⟩ optW).2.cache uC10 = none :=
  c8_fetch_preserves_no_file_entries envW ⟨[], []⟩ optW
    (fun _ _ => rfl) uC10 (by decide)

end FileFetcherModel

namespace FileFetcherModel

/-- C6: map_content_type derives the media type solely from the path
suffix with no charset when the header is absent; when the header is
present, the first semicolon separated token determines the media type via
the specifier aware mapping (under which the trimmed token is what
matters, and a .ts path under application/javascript is TypeScript), and
the charset comes from a later token of the form charset=X when one
exists. -/
theorem c6_map_content_type :
    (∀ s : Url, map_content_type s none = (MediaType.from_specifier s, none)) ∧
    (∀ (s : Url) (ct : String),
      (map_content_type s (some ct)).1
          = MediaType.from_content_type s ((rustSplit ct ';').headD ("")) ∧
      (map_content_type s (some ct)).2 = charsetFromParams (rustSplit ct ';').tail) ∧
    map_content_type uTs (some ("application/javascript")) = (.TypeScript, none) ∧
    map_content_type uTs (some (" application/typescript ; charset=utf-8"))
        = (.TypeScript, some ("utf-8")) ∧
    map_content_type uTs (some ("application/typescript; foo=1; charset=utf-8; charset=x"))
        = (.TypeScript, some ("utf-8")) ∧
    map_content_type uTs (some ("charset=utf-8")) = (.TypeScript, none) := by
  refine ⟨fun s => rfl, fun s ct => ⟨rfl, rfl⟩, by decide, by decide, by decide, by decide⟩

/-- C7 counterexample: with ReloadSome over the single entry
https://ex.com/a/ (note the trailing slash), should_use_cache on
https://ex.com/a/b.ts returns true, that is the cache is used, while the
claim requires false (bypass): the successively popped path prefixes
https://ex.com/a, https://ex.com, https: never carry a trailing slash and
therefore never equal the listed entry. -/
theorem c7_reload_some_trailing_slash_cex :
    should_use_cache freshNone [] uAB (.ReloadSome reloadList) = true := by decide

/-- C7 (amended): with ReloadSome over [https://ex.com/a/], the cache is
bypassed for https://ex.com/a/ (exact match of the fragment stripped URL)
but used both for https://ex.com/a/b.ts and for https://ex.com/b/c.ts; the
general rule stands with the proviso that the popped prefixes carry no
trailing slash, so the entry https://ex.com/a (no trailing slash) does
bypass https://ex.com/a/b.ts, a query is dropped before the prefix walk,
and a fragment is dropped before the exact comparison. -/
theorem c7_reload_some_behavior :
    should_use_cache freshNone [] uAB (.ReloadSome reloadList) = true ∧
    should_use_cache freshNone [] uAdir (.ReloadSome reloadList) = false ∧
    should_use_cache freshNone [] uBC (.ReloadSome reloadList) = true ∧
    should_use_cache freshNone [] uAB (.ReloadSome [("https://ex.com/a")]) = false ∧
    should_use_cache freshNone [] ⟨("https"), ("//ex.com/a/b.ts"), some ("v=1"), none⟩
        (.ReloadSome [("https://ex.com/a/b.ts")]) = false ∧
    should_use_cache freshNone [] ⟨("https"), ("//ex.com/a/b.ts"), none, some ("sec")⟩
        (.ReloadSome [("https://ex.com/a/b.ts")]) = false := by decide

end FileFetcherModel

namespace FileFetcherModel

/-- C1 counterexample: a successful fetch_with_options of a data URL (a
non file scheme) is not inserted into the session cache: the call succeeds
yet the resulting state still has no session cache entry for the
specifier, so an immediately following fetch decodes the data URL again;
only the remote http and https path inserts. -/
theorem c1_data_fetch_not_inserted_cex :
    (fetch_with_options envData ⟨[], []⟩ optData).1 = .ok fileData ∧
    FileCache.get (fetch_with_options envData ⟨[], []⟩ optData).2.cache uData = none := by
  decide

/-- C1 (amended): for http and https specifiers, every successful
fetch_with_options leaves the returned artifact in the session cache under
the requested specifier, and an immediately following fetch of the same
specifier returns that cached artifact with the state unchanged, consuming
no network responses. -/
theorem c1_remote_success_inserted (env : FetchEnv) (st : FetcherState)
    (options options2 : FetchOptions) (file : File) (st2 : FetcherState)
    (hscheme : options.specifier.scheme = ("http") ∨ options.specifier.scheme = ("https"))
    (heq : fetch_with_options env st options = (.ok file, st2))
    (hsame : options2.specifier = options.specifier)
    (hperm2 : options2.permissions options.specifier = true) :
    FileCache.get st2.cache options.specifier = some file ∧
    fetch_with_options env st2 options2 = (.ok file, st2) := by
  have hv : get_validated_scheme options.specifier = .ok options.specifier.scheme := by
    unfold get_validated_scheme
    rcases hscheme with h | h <;> rw [h] <;> decide
  have second : ∀ stx : FetcherState,
      FileCache.get stx.cache options.specifier = some file →
      fetch_with_options env stx options2 = (.ok file, stx) := by
    intro stx hget
    simp [fetch_with_options, hsame, hv, hperm2, hget]
  have hfirst : FileCache.get st2.cache options.specifier = some file := by
    simp only [fetch_with_options, hv] at heq
    by_cases hperm : options.permissions options.specifier = false
    · rw [if_pos hperm] at heq
      simp at heq
    · rw [if_neg hperm] at heq
      cases hcache : FileCache.get st.cache options.specifier with
      | some f0 =>
        rw [hcache] at heq
        simp only [] at heq
        cases heq
        exact hcache
      | none =>
        rw [hcache] at heq
        rcases hscheme with h | h <;> rw [h] at heq <;>
        · simp only [String.reduceEq, if_false] at heq
          by_cases hrem : env.allow_remote = false
          · rw [if_pos hrem] at heq
            simp at heq
          · rw [if_neg hrem] at heq
            cases hr : (fetch_remote options.permissions
                (options.maybe_cache_setting.getD env.cache_setting) env.fresh
                env.stream options.specifier 10 st.http).1 with
            | ok f1 =>
              rw [hr] at heq
              simp only [Prod.mk.injEq, Outcome.ok.injEq] at heq
              obtain ⟨h1, h2⟩ := heq
              subst h1
              rw [← h2]
              exact fileCacheGetInsertSelf st.cache options.specifier f1
            | err e =>
              rw [hr] at heq
              simp at heq
            | crash =>
              rw [hr] at heq
              simp at heq
  exact ⟨hfirst, second st2 hfirst⟩

/-- C1 amended witness: a concrete successful remote fetch, its insertion
into the session cache, and the cache hit of the immediately following
fetch. -/
theorem c1_remote_success_inserted_witness :
    FileCache.get stW2.cache uW = some fileW ∧
    fetch_with_options envW stW2 optW = (.ok fileW, stW2) :=
  c1_remote_success_inserted envW ⟨[], []⟩ optW optW fileW stW2
    (Or.inr rfl) (by decide) rfl rfl

end FileFetcherModel

namespace FileFetcherModel

/-- C5: fetch_once classifies every outcome of a single non redirecting
GET: connect or timeout transport errors become Ok RequestError while any
other transport error is fatal; 304 becomes NotModified; any other 3xx
becomes Redirect with the location resolved against the request URL (and a
missing location is fatal); any 5xx becomes ServerError with the status;
404 is a fatal NotFound error; any other 4xx is a fatal generic error
carrying the status; 2xx becomes Code with the body bytes and the captured
headers. -/
theorem c5_fetch_once_classification :
    (∀ (u : Url) (t : Bool) (msg : String),
      fetch_once u (.failure true t msg) = .ok (.RequestError msg)) ∧
    (∀ (u : Url) (c : Bool) (msg : String),
      fetch_once u (.failure c true msg) = .ok (.RequestError msg)) ∧
    (∀ (u : Url) (msg : String),
      fetch_once u (.failure false false msg) = .error (.generic msg)) ∧
    (∀ (u : Url) (hs : List (String × String)) (body : List Nat),
      fetch_once u (.success 304 hs body) = .ok .NotModified) ∧
    (∀ (u : Url) (i : Nat) (hs : List (String × String)) (body : List Nat),
      fetch_once u (.success (300 + i % 100) hs body) =
        if 300 + i % 100 = 304 then .ok .NotModified
        else
          match resolve_redirect u hs with
          | .ok new_url => .ok (.Redirect new_url (captureHeaders hs))
          | .error e => .error e) ∧
    (∀ (u : Url) (i : Nat) (hs : List (String × String)) (body : List Nat),
      fetch_once u (.success (500 + i % 100) hs body)
        = .ok (.ServerError (500 + i % 100))) ∧
    (∀ (u : Url) (hs : List (String × String)) (body : List Nat),
      fetch_once u (.success 404 hs body) =
        .error (.custom ("NotFound") (("Import ") ++ u.asStr ++ (" failed, not found.")))) ∧
    (∀ (u : Url) (i : Nat) (hs : List (String × String)) (body : List Nat),
      fetch_once u (.success (400 + i % 100) hs body) =
        if 400 + i % 100 = 404 then
          .error (.custom ("NotFound") (("Import ") ++ u.asStr ++ (" failed, not found.")))
        else
          .error (.generic (("Import ") ++ u.asStr ++ (" failed: ")
            ++ toString (400 + i % 100)))) ∧
    (∀ (u : Url) (i : Nat) (hs : List (String × String)) (body : List Nat),
      fetch_once u (.success (200 + i % 100) hs body)
        = .ok (.Code body (captureHeaders hs))) := by
  refine ⟨?_, ?_, ?_, ?_, ?_, ?_, ?_, ?_, ?_⟩
  · intro u t msg
    simp [fetch_once]
  · intro u c msg
    simp [fetch_once]
  · intro u msg
    simp [fetch_once]
  · intro u hs body
    simp [fetch_once]
  · intro u i hs body
    have hm : i % 100 < 100 := Nat.mod_lt _ (by norm_num)
    by_cases h304 : 300 + i % 100 = 304
    · simp [fetch_once, h304]
    · have h3 : (300 ≤ 300 + i % 100 && 300 + i % 100 ≤ 399) = true := by
        simp only [Bool.and_eq_true, decide_eq_true_eq]
        omega
      simp only [fetch_once, h304, if_neg h304, if_false, h3, if_true]
  · intro u i hs body
    have hm : i % 100 < 100 := Nat.mod_lt _ (by norm_num)
    have h304 : ¬ (500 + i % 100 = 304) := by omega
    have h3b : (300 ≤ 500 + i % 100 && 500 + i % 100 ≤ 399) = false := by
      have : ¬ (500 + i % 100 ≤ 399) := by omega
      simp [this]
    have h5 : (500 ≤ 500 + i % 100 && 500 + i % 100 ≤ 599) = true := by
      simp only [Bool.and_eq_true, decide_eq_true_eq]
      omega
    simp only [fetch_once, h304, if_false, h3b, h5, if_true, Bool.false_eq_true]
  · intro u hs body
    simp [fetch_once]
  · intro u i hs body
    have hm : i % 100 < 100 := Nat.mod_lt _ (by norm_num)
    have h304 : ¬ (400 + i % 100 = 304) := by omega
    have h3b : (300 ≤ 400 + i % 100 && 400 + i % 100 ≤ 399) = false := by
      have : ¬ (400 + i % 100 ≤ 399) := by omega
      simp [this]
    have h5b : (500 ≤ 400 + i % 100 && 400 + i % 100 ≤ 599) = false := by
      have : ¬ (500 ≤ 400 + i % 100) := by omega
      simp [this]
    have h4 : (400 ≤ 400 + i % 100 && 400 + i % 100 ≤ 499) = true := by
      simp only [Bool.and_eq_true, decide_eq_true_eq]
      omega
    simp only [fetch_once, h304, if_false, h3b, h5b, h4, if_true, Bool.false_eq_true]
  · intro u i hs body
    have hm : i % 100 < 100 := Nat.mod_lt _ (by norm_num)
    have h304 : ¬ (200 + i % 100 = 304) := by omega
    have h3b : (300 ≤ 200 + i % 100 && 200 + i % 100 ≤ 399) = false := by
      have : ¬ (300 ≤ 200 + i % 100) := by omega
      simp [this]
    have h5b : (500 ≤ 200 + i % 100 && 200 + i % 100 ≤ 599) = false := by
      have : ¬ (500 ≤ 200 + i % 100) := by omega
      simp [this]
    have h4b : (400 ≤ 200 + i % 100 && 200 + i % 100 ≤ 499) = false := by
      have : ¬ (400 ≤ 200 + i % 100) := by omega
      simp [this]
    simp [fetch_once, h304, h3b, h5b, h4b]

end FileFetcherModel

namespace FileFetcherModel

theorem stepGuard (fuel : Nat) (stream : List (Except Err FetchOnceResult))
    (sp : Url) (limit : Int) (hc : HttpCacheState) (h : limit < 0) :
    fetchRemoteF permAll .ReloadAll freshNone (fuel + 1) stream .entry sp limit hc
      = (.err tooManyRedirects, hc, []) := by
  simp [fetchRemoteF, h, tooManyRedirects]

theorem stepEntry (fuel : Nat) (stream : List (Except Err FetchOnceResult))
    (sp : Url) (limit : Int) (hc : HttpCacheState) (h : ¬ limit < 0) :
    fetchRemoteF permAll .ReloadAll freshNone (fuel + 1) stream .entry sp limit hc
      = fetchRemoteF permAll .ReloadAll freshNone fuel stream (.inloop false) sp limit hc := by
  simp [fetchRemoteF, h, should_use_cache, permAll]

theorem stepRedirect (fuel : Nat) (rest : List (Except Err FetchOnceResult))
    (tgt : Url) (hdrs : Headers) (sp : Url) (limit : Int) (hc : HttpCacheState)
    (retried : Bool) :
    fetchRemoteF permAll .ReloadAll freshNone (fuel + 1)
        ((.ok (.Redirect tgt hdrs)) :: rest) (.inloop retried) sp limit hc
      = fetchRemoteF permAll .ReloadAll freshNone fuel rest .entry tgt (limit - 1)
          (httpCacheSet hc sp hdrs []) := by
  simp [fetchRemoteF]

theorem stepCode (fuel : Nat) (rest : List (Except Err FetchOnceResult))
    (bytes : List Nat) (hdrs : Headers) (sp : Url) (limit : Int)
    (hc : HttpCacheState) (retried : Bool) (file : File)
    (hbuild : build_remote_file sp bytes hdrs = .ok file) :
    fetchRemoteF permAll .ReloadAll freshNone (fuel + 1)
        ((.ok (.Code bytes hdrs)) :: rest) (.inloop retried) sp limit hc
      = (.ok file, httpCacheSet hc sp hdrs bytes, []) := by
  simp [fetchRemoteF, hbuild]

theorem stepTransientRetry (fuel : Nat) (rest : List (Except Err FetchOnceResult))
    (msg : String) (sp : Url) (limit : Int) (hc : HttpCacheState) :
    fetchRemoteF permAll .ReloadAll freshNone (fuel + 1)
        ((.ok (.RequestError msg)) :: rest) (.inloop false) sp limit hc
      = ((fetchRemoteF permAll .ReloadAll freshNone fuel rest (.inloop true) sp limit hc).1,
         (fetchRemoteF permAll .ReloadAll freshNone fuel rest (.inloop true) sp limit hc).2.1,
         50 :: (fetchRemoteF permAll .ReloadAll freshNone fuel rest (.inloop true) sp limit hc).2.2) := by
  simp [fetchRemoteF, handle_request_or_server_error]

theorem stepTransientFail (fuel : Nat) (rest : List (Except Err FetchOnceResult))
    (msg : String) (sp : Url) (limit : Int) (hc : HttpCacheState) :
    fetchRemoteF permAll .ReloadAll freshNone (fuel + 1)
        ((.ok (.RequestError msg)) :: rest) (.inloop true) sp limit hc
      = (.err (.generic (("Import ") ++ sp.asStr ++ (" failed: ") ++ msg)), hc, []) := by
  simp [fetchRemoteF, handle_request_or_server_error]

theorem c2aux (k : Nat) : ∀ (fuel : Nat) (limit : Int) (hc : HttpCacheState),
    ((fetchRemoteF permAll .ReloadAll freshNone (2 * k + fuel + 4) (redirStream k)
        .entry uC2 limit hc).1 = .err tooManyRedirects ↔ limit < (k : Int)) ∧
    ((fetchRemoteF permAll .ReloadAll freshNone (2 * k + fuel + 4) (redirStream k)
        .entry uC2 limit hc).1 = .ok fileC2 ↔ (k : Int) ≤ limit) := by
  induction k with
  | zero =>
    intro fuel limit hc
    rw [show 2 * 0 + fuel + 4 = (2 * 0 + fuel + 3) + 1 from by ring]
    rw [show redirStream 0 = [.ok (.Code [120] [])] from by simp [redirStream]]
    by_cases h : limit < 0
    · rw [stepGuard _ _ _ _ _ h]
      constructor
      · constructor
        · intro _
          exact_mod_cast h
        · intro _
          rfl
      · constructor
        · intro he
          simp at he
        · intro hle
          exact absurd hle (by omega)
    · rw [stepEntry _ _ _ _ _ h]
      rw [show 2 * 0 + fuel + 3 = (2 * 0 + fuel + 2) + 1 from by ring]
      rw [stepCode _ _ _ _ _ _ _ _ fileC2 (by decide)]
      constructor
      · constructor
        · intro he
          simp at he
        · intro hlt
          exact absurd hlt (by omega)
      · constructor
        · intro _
          omega
        · intro _
          rfl
  | succ k ih =>
    intro fuel limit hc
    by_cases h : limit < 0
    · rw [show 2 * (k + 1) + fuel + 4 = (2 * (k + 1) + fuel + 3) + 1 from by ring]
      rw [stepGuard _ _ _ _ _ h]
      constructor
      · constructor
        · intro _
          omega
        · intro _
          rfl
      · constructor
        · intro he
          simp at he
        · intro hle
          exact absurd hle (by omega)
    · rw [show redirStream (k + 1)
            = (.ok (.Redirect uC2 redirectHeaders)) :: redirStream k from by
          simp [redirStream, List.replicate_succ]]
      rw [show 2 * (k + 1) + fuel + 4 = (2 * (k + 1) + fuel + 3) + 1 from by ring]
      rw [stepEntry _ _ _ _ _ h]
      rw [show 2 * (k + 1) + fuel + 3 = (2 * (k + 1) + fuel + 2) + 1 from by ring]
      rw [stepRedirect]
      rw [show 2 * (k + 1) + fuel + 2 = 2 * k + fuel + 4 from by ring]
      have hih := ih fuel (limit - 1) (httpCacheSet hc uC2 redirectHeaders [])
      constructor
      · rw [hih.1]
        omega
      · rw [hih.2]
        omega

/-- C2: every remote fetch started through fetch_with_options enters the
remote path with a redirect budget of 10, decremented per hop; a scripted
chain offering k redirects before its terminal 200 fails with the too many
redirects Http error exactly when k exceeds 10, and with k at most 10 the
redirect limit guard never fires and the fetch succeeds. -/
theorem c2_redirect_budget (k : Nat) :
    ((fetch_with_options (envC2 k) ⟨[], []⟩ optC2).1 = .err tooManyRedirects
        ↔ 10 < (k : Int)) ∧
    ((fetch_with_options (envC2 k) ⟨[], []⟩ optC2).1 = .ok fileC2
        ↔ (k : Int) ≤ 10) := by
  have hv : get_validated_scheme uC2 = Except.ok ("https") := by decide
  have hbridge : (fetch_with_options (envC2 k) ⟨[], []⟩ optC2).1
      = (fetch_remote permAll .ReloadAll freshNone (redirStream k) uC2 10 []).1 := by
    cases hr : (fetch_remote permAll .ReloadAll freshNone (redirStream k) uC2 10 []).1 with
    | ok f => simp [fetch_with_options, optC2, envC2, hv, FileCache.get, permAll, hr]
    | err e => simp [fetch_with_options, optC2, envC2, hv, FileCache.get, permAll, hr]
    | crash => simp [fetch_with_options, optC2, envC2, hv, FileCache.get, permAll, hr]
  rw [hbridge]
  have hlen : (redirStream k).length = k + 1 := by simp [redirStream]
  unfold fetch_remote
  rw [hlen]
  rw [show 2 * (k + 1) + 2 = 2 * k + 0 + 4 from by ring]
  exact c2aux k 0 10 []

end FileFetcherModel

namespace FileFetcherModel

/-- C3: on a single hop of the remote path, a transient fetch_once outcome
(RequestError, or a 5xx ServerError) triggers exactly one retry after a
50 ms sleep: a script of k consecutive transient failures followed by a
success makes the hop succeed exactly when k is at most 1; from the second
consecutive transient failure on, the hop fails with the descriptive
Import failed error, and exactly one 50 ms sleep was performed. -/
theorem c3_retry_once (k : Nat) :
    ((fetch_remote permAll .ReloadAll freshNone (transStream k) uC3 10 []).1
        = .ok fileC3 ↔ k ≤ 1) ∧
    ((fetch_remote permAll .ReloadAll freshNone (transStream k) uC3 10 []).1
        = .err errC3 ↔ 2 ≤ k) ∧
    ((fetch_remote permAll .ReloadAll freshNone (transStream k) uC3 10 []).2.2
        = if k = 0 then ([] : List Nat) else [50]) ∧
    (fetch_remote permAll .ReloadAll freshNone
        [.ok (.ServerError 502), .ok (.Code [120] [])] uC3 10 []).1 = .ok fileC3 ∧
    (fetch_remote permAll .ReloadAll freshNone
        [.ok (.ServerError 502), .ok (.ServerError 502)] uC3 10 []).1
      = .err (.generic (("Import ") ++ uC3.asStr ++ (" failed: ") ++ toString 502)) ∧
    (fetch_remote permAll .ReloadAll freshNone
        [.ok (.ServerError 502), .ok (.Code [120] [])] uC3 10 []).2.2 = [50] := by
  rcases k with _ | k
  · exact ⟨by decide, by decide, by decide, by decide, by decide, by decide⟩
  rcases k with _ | k
  · exact ⟨by decide, by decide, by decide, by decide, by decide, by decide⟩
  have hfail : fetch_remote permAll .ReloadAll freshNone (transStream (k + 1 + 1)) uC3 10 []
      = (.err errC3, [], [50]) := by
    have hlen : (transStream (k + 1 + 1)).length = k + 1 + 1 + 1 := by
      simp [transStream]
    have hs : transStream (k + 1 + 1)
        = (.ok (.RequestError transMsg)) :: (.ok (.RequestError transMsg)) :: transStream k := by
      simp [transStream, List.replicate_succ]
    unfold fetch_remote
    rw [hlen, hs]
    rw [show 2 * (k + 1 + 1 + 1) + 2 = (2 * k + 7) + 1 from by ring]
    rw [stepEntry _ _ _ _ _ (by omega)]
    rw [show (2 * k + 7 : Nat) = (2 * k + 6) + 1 from by ring]
    rw [stepTransientRetry]
    rw [show (2 * k + 6 : Nat) = (2 * k + 5) + 1 from by ring]
    rw [stepTransientFail]
    rfl
  refine ⟨?_, ?_, ?_, by decide, by decide, by decide⟩
  · rw [hfail]
    constructor
    · intro he
      simp at he
    · intro hle
      exact absurd hle (by omega)
  · rw [hfail]
    constructor
    · intro _
      omega
    · intro _
      rfl
  · rw [hfail]
    simp

end FileFetcherModel
